import Mathlib

/-!
# Verification of the `react-node-vehicle` repository

Shallow embedding of the Express backend (`server.js`, shown as
`src/unnamed/part_000` lines 1–209) of the vehicle-search application,
together with proofs of the testable properties stated in the design
specification.

The backend is pure string/list manipulation over an in-memory list of
vehicle records, so the embedding is direct:

* JavaScript strings are Lean `String`s (the application data is ASCII;
  the JS builtins `toLowerCase`, `toUpperCase`, `includes` are modelled
  character-wise, which agrees with JS on ASCII input);
* the JS numeric conversions `isNaN(s)` (i.e. `Number(s)` producing NaN)
  and `parseInt(s)` are modelled for decimal literals (optional
  whitespace, optional sign, digits, optional fraction and exponent);
  radix-prefixed literals (`0x…`) are outside the model;
* the request-body value `req.body.query` is an arbitrary JSON value,
  modelled by `JsVal`, since the handler tests it by truthiness and then
  coerces with `toString()`;
* the fallible file read + JSON parse in `getVehiclesData` is modelled
  by an `Except` parameter: `.ok vs` is a successful read/parse yielding
  the record list `vs`, `.error e` is a thrown exception.
-/

/-! ## JS string primitives -/

/-- JS `String.prototype.toLowerCase`, character-wise (exact on ASCII). -/
def jsToLower (s : String) : String := ⟨s.data.map Char.toLower⟩

/-- JS `String.prototype.toUpperCase`, character-wise (exact on ASCII). -/
def jsToUpper (s : String) : String := ⟨s.data.map Char.toUpper⟩

/-- `startsWithChars l sub`: `sub` is a prefix of `l` (character lists). -/
def startsWithChars : List Char → List Char → Bool
  | _, [] => true
  | [], _ :: _ => false
  | c :: cs, d :: ds => c = d && startsWithChars cs ds

/-- `hasSubChars l sub`: `sub` occurs contiguously inside `l`. -/
def hasSubChars : List Char → List Char → Bool
  | [], sub => sub.isEmpty
  | c :: cs, sub => startsWithChars (c :: cs) sub || hasSubChars cs sub

/-- JS `s.includes(sub)`: substring containment. -/
def jsIncludes (s sub : String) : Bool := hasSubChars s.data sub.data

/-! ## JS numeric conversions -/

/-- Whitespace as trimmed by JS numeric conversion (ASCII fragment). -/
def jsIsSpace (c : Char) : Bool := c = ' ' || c = '\t' || c = '\n' || c = '\r'

/-- Trim leading and trailing whitespace from a character list. -/
def jsTrim (l : List Char) : List Char :=
  ((l.dropWhile jsIsSpace).reverse.dropWhile jsIsSpace).reverse

/-- Drop an optional single leading `+`/`-` sign. -/
def dropSign : List Char → List Char
  | c :: rest => if c = '+' || c = '-' then rest else c :: rest
  | [] => []

/-- Does the list start with a decimal digit? -/
def hasDigitHead : List Char → Bool
  | [] => false
  | c :: _ => c.isDigit

/-- Consume the mantissa of a decimal literal: `digits ('.' digits?)?`
or `'.' digits`.  Returns the rest on success. -/
def chompMantissa (l : List Char) : Option (List Char) :=
  if hasDigitHead l then
    match l.dropWhile Char.isDigit with
    | '.' :: rest => some (rest.dropWhile Char.isDigit)
    | rest => some rest
  else
    match l with
    | '.' :: rest =>
        if hasDigitHead rest then some (rest.dropWhile Char.isDigit) else none
    | _ => none

/-- Consume an optional exponent `('e'|'E') sign? digits`. -/
def chompExponent : List Char → Option (List Char)
  | [] => some []
  | c :: rest =>
      if c = 'e' || c = 'E' then
        let r := dropSign rest
        if hasDigitHead r then some (r.dropWhile Char.isDigit) else none
      else some (c :: rest)

/-- Is the (already trimmed) character list a decimal numeric literal? -/
def isDecLiteral (l : List Char) : Bool :=
  match chompMantissa (dropSign l) with
  | some rest =>
      match chompExponent rest with
      | some [] => true
      | _ => false
  | none => false

/-- JS `!isNaN(s)` for a string `s`: `Number(s)` is not NaN.  An empty or
whitespace-only string converts to `0`, otherwise the trimmed string must
be a decimal numeric literal. -/
def jsNotNaN (s : String) : Bool :=
  let t := jsTrim s.data
  t.isEmpty || isDecLiteral t

/-- Numeric value of a list of decimal digits. -/
def decValue (ds : List Char) : Nat :=
  ds.foldl (fun a c => 10 * a + (c.toNat - 48)) 0

/-- JS `parseInt(s)` (radix unspecified, decimal input): skip leading
whitespace, read an optional sign and then the longest digit prefix;
`none` models the NaN result when no digit is found. -/
def jsParseInt (s : String) : Option Int :=
  match s.data.dropWhile jsIsSpace with
  | [] => none
  | c :: r =>
      if c = '-' then
        let ds := r.takeWhile Char.isDigit
        if ds.isEmpty then none else some (-(decValue ds : Int))
      else if c = '+' then
        let ds := r.takeWhile Char.isDigit
        if ds.isEmpty then none else some (decValue ds : Int)
      else
        let ds := (c :: r).takeWhile Char.isDigit
        if ds.isEmpty then none else some (decValue ds : Int)

/-! ## Request-body values and JS truthiness -/

/-- A JSON value as it can arrive in `req.body.query` (the shapes the
claims are about: absent, null, boolean, integer number, string). -/
inductive JsVal where
  | undef
  | null
  | bool (b : Bool)
  | num (n : Int)
  | str (s : String)
deriving DecidableEq

/-- JS truthiness of a `JsVal` (`!searchQuery` is its negation). -/
def jsTruthy : JsVal → Bool
  | .undef => false
  | .null => false
  | .bool b => b
  | .num n => decide (n ≠ 0)
  | .str s => decide (s ≠ "")

/-- JS `toString()` / template-literal stringification of a `JsVal`. -/
def jsToString : JsVal → String
  | .undef => "undefined"
  | .null => "null"
  | .bool b => if b then "true" else "false"
  | .num n => toString n
  | .str s => s

/-! ## Data model -/

/-- A vehicle record from `data.json` (spec §3). -/
structure Vehicle where
  VRM : String
  Make : String
  Model : String
  Variant : String
  Colour : String
  BodyType : String
  Price : Int
  Mileage : Int
  DateOfRegistration : String
deriving DecidableEq

/-! ## The search predicate (POST /api/vehicles/search, lines 124–161)

`query` below is the already-lowercased search string, exactly as in the
handler (`const query = searchQuery.toString().toLowerCase()`). -/

/-- Line 126: `vehicle.VRM.toLowerCase().includes(query)`. -/
def vrmMatch (query : String) (v : Vehicle) : Bool :=
  jsIncludes (jsToLower v.VRM) query

/-- Line 129: `vehicle.Make.toLowerCase().includes(query)`. -/
def makeMatch (query : String) (v : Vehicle) : Bool :=
  jsIncludes (jsToLower v.Make) query

/-- Line 132: `vehicle.Model.toLowerCase().includes(query)`. -/
def modelMatch (query : String) (v : Vehicle) : Bool :=
  jsIncludes (jsToLower v.Model) query

/-- Line 135: `vehicle.Variant.toLowerCase().includes(query)`. -/
def variantMatch (query : String) (v : Vehicle) : Bool :=
  jsIncludes (jsToLower v.Variant) query

/-- Line 138: `vehicle.Colour.toLowerCase().includes(query)`. -/
def colourMatch (query : String) (v : Vehicle) : Bool :=
  jsIncludes (jsToLower v.Colour) query

/-- Line 141: `vehicle.BodyType.toLowerCase().includes(query)`. -/
def bodyTypeMatch (query : String) (v : Vehicle) : Bool :=
  jsIncludes (jsToLower v.BodyType) query

/-- Line 144: `!isNaN(query) && vehicle.Price === parseInt(query)`
(`x === NaN` is false, hence the `none` branch). -/
def priceExactMatch (query : String) (v : Vehicle) : Bool :=
  jsNotNaN query &&
    match jsParseInt query with
    | some n => decide (v.Price = n)
    | none => false

/-- Line 147: `!isNaN(query) && vehicle.Mileage === parseInt(query)`. -/
def mileageExactMatch (query : String) (v : Vehicle) : Bool :=
  jsNotNaN query &&
    match jsParseInt query with
    | some n => decide (v.Mileage = n)
    | none => false

/-- Lines 150–154: `!isNaN(query)` and then
`Math.abs(vehicle.Price - parseInt(query)) <= 1000`
(`NaN <= 1000` is false, hence the `none` branch). -/
def fuzzyPriceMatch (query : String) (v : Vehicle) : Bool :=
  jsNotNaN query &&
    match jsParseInt query with
    | some n => decide ((v.Price - n).natAbs ≤ 1000)
    | none => false

/-- Line 157: `vehicle.DateOfRegistration.includes(query)` — note the
field is NOT lowercased here, unlike the six text fields above. -/
def dateMatch (query : String) (v : Vehicle) : Bool :=
  jsIncludes v.DateOfRegistration query

/-- The filter callback of lines 124–161: the chain of early-return
`if … return true` tests, in source order. -/
def vehicleMatches (query : String) (v : Vehicle) : Bool :=
  if vrmMatch query v then true
  else if makeMatch query v then true
  else if modelMatch query v then true
  else if variantMatch query v then true
  else if colourMatch query v then true
  else if bodyTypeMatch query v then true
  else if priceExactMatch query v then true
  else if mileageExactMatch query v then true
  else if fuzzyPriceMatch query v then true
  else if dateMatch query v then true
  else false

/-! ## HTTP handlers -/

/-- Response of POST /api/vehicles/search (lines 103–187):
`badRequest` is the 400 `{success:false,message}` envelope,
`ok` the 200 `{success:true,count,data}` envelope,
`notFound` the 404 `{success:false,message,data:[]}` envelope. -/
inductive SearchResponse where
  | badRequest (message : String)
  | ok (count : Nat) (data : List Vehicle)
  | notFound (message : String) (data : List Vehicle)
deriving DecidableEq

/-- The vehicle data carried by a search response (`[]` when absent). -/
def searchData : SearchResponse → List Vehicle
  | .badRequest _ => []
  | .ok _ data => data
  | .notFound _ data => data

/-- POST /api/vehicles/search handler (lines 103–187), parameterised by
the request-body `query` value and the vehicle list that
`getVehiclesData()` returned. -/
def searchHandler (searchQuery : JsVal) (vehicles : List Vehicle) : SearchResponse :=
  if !(jsTruthy searchQuery) then
    .badRequest "Search query is required"
  else
    let query := jsToLower (jsToString searchQuery)
    let matchingVehicles := vehicles.filter (fun vehicle => vehicleMatches query vehicle)
    if matchingVehicles.length > 0 then
      .ok matchingVehicles.length matchingVehicles
    else
      .notFound ("No vehicles found matching: \"" ++ jsToString searchQuery ++ "\"") []

/-- Response of GET /api/vehicles/vrm/:vrm (lines 64–97): 200
`{success:true,data}` or 404 `{success:false,message}` (no data field). -/
inductive VrmResponse where
  | found (data : Vehicle)
  | notFound (message : String)
deriving DecidableEq

/-- GET /api/vehicles/vrm/:vrm handler (lines 64–97), parameterised by
the `:vrm` path parameter and the loaded vehicle list.  The source's
`const vrm = req.params.vrm.toUpperCase()` is inlined as
`jsToUpper param`. -/
def vrmHandler (param : String) (vehicles : List Vehicle) : VrmResponse :=
  match vehicles.find? (fun v => decide (jsToUpper v.VRM = jsToUpper param)) with
  | some vehicle => .found vehicle
  | none => .notFound ("No vehicle found with VRM: " ++ jsToUpper param)

/-! ## The store and GET /api/vehicles -/

/-- `getVehiclesData` (lines 21–34): the `readFileSync` + `JSON.parse`
attempt is the `Except` argument (`.ok vs` = file read and parsed to the
list `vs`, `.error e` = an exception was thrown); the `catch` branch
returns `[]`. -/
def getVehiclesData (readAttempt : Except String (List Vehicle)) : List Vehicle :=
  match readAttempt with
  | .ok vs => vs
  | .error _ => []

/-- Response of GET /api/vehicles (lines 39–58), success path: HTTP 200,
`{success:true,count,data}`. -/
structure ListAllResponse where
  status : Nat
  success : Bool
  count : Nat
  data : List Vehicle
deriving DecidableEq

/-- GET /api/vehicles handler (lines 39–58). -/
def listAllHandler (readAttempt : Except String (List Vehicle)) : ListAllResponse :=
  let vehicles := getVehiclesData readAttempt
  { status := 200, success := true, count := vehicles.length, data := vehicles }

/-! ## Case variants

Two strings are case variants when they agree character by character up
to letter case (same character after both lowercasing and uppercasing).
-/

/-- `c` and `d` are the same character up to letter case. -/
def charCaseEquiv (c d : Char) : Bool :=
  decide (c.toLower = d.toLower) && decide (c.toUpper = d.toUpper)

/-- Pointwise case-equivalence of two character lists. -/
def caseVariantChars : List Char → List Char → Bool
  | [], [] => true
  | c :: cs, d :: ds => charCaseEquiv c d && caseVariantChars cs ds
  | _, _ => false

/-- `s` and `t` are case variants of one another. -/
def isCaseVariantOf (s t : String) : Bool := caseVariantChars s.data t.data

theorem caseVariantChars_map_toLower {l1 l2 : List Char}
    (h : caseVariantChars l1 l2 = true) :
    l1.map Char.toLower = l2.map Char.toLower := by
  induction l1 generalizing l2 with
  | nil =>
    cases l2 with
    | nil => rfl
    | cons d ds => simp [caseVariantChars] at h
  | cons c cs ih =>
    cases l2 with
    | nil => simp [caseVariantChars] at h
    | cons d ds =>
      simp [caseVariantChars, charCaseEquiv] at h
      obtain ⟨⟨h1, h2⟩, h3⟩ := h
      simp [h1, ih h3]

theorem caseVariantChars_map_toUpper {l1 l2 : List Char}
    (h : caseVariantChars l1 l2 = true) :
    l1.map Char.toUpper = l2.map Char.toUpper := by
  induction l1 generalizing l2 with
  | nil =>
    cases l2 with
    | nil => rfl
    | cons d ds => simp [caseVariantChars] at h
  | cons c cs ih =>
    cases l2 with
    | nil => simp [caseVariantChars] at h
    | cons d ds =>
      simp [caseVariantChars, charCaseEquiv] at h
      obtain ⟨⟨h1, h2⟩, h3⟩ := h
      simp [h2, ih h3]

theorem caseVariantChars_nil_iff {l1 l2 : List Char}
    (h : caseVariantChars l1 l2 = true) : l1 = [] ↔ l2 = [] := by
  cases l1 <;> cases l2 <;> simp_all [caseVariantChars]

theorem isCaseVariantOf_toLower {s t : String} (h : isCaseVariantOf s t = true) :
    jsToLower s = jsToLower t := by
  unfold isCaseVariantOf at h
  unfold jsToLower
  exact congrArg String.mk (caseVariantChars_map_toLower h)

theorem isCaseVariantOf_toUpper {s t : String} (h : isCaseVariantOf s t = true) :
    jsToUpper s = jsToUpper t := by
  unfold isCaseVariantOf at h
  unfold jsToUpper
  exact congrArg String.mk (caseVariantChars_map_toUpper h)

theorem isCaseVariantOf_empty_iff {s t : String} (h : isCaseVariantOf s t = true) :
    s = "" ↔ t = "" := by
  unfold isCaseVariantOf at h
  have hd := caseVariantChars_nil_iff h
  constructor
  · intro hs
    apply String.ext
    subst hs
    exact (hd.mp rfl).symm ▸ rfl
  · intro ht
    apply String.ext
    subst ht
    exact (hd.mpr rfl).symm ▸ rfl

/-! ## Core handler lemmas -/

/-- For an accepted (truthy) query value, the search response's data is
exactly the filter of the collection by the match predicate applied to
the lowercased stringified query. -/
theorem searchData_eq_filter_of_truthy (q : JsVal) (vs : List Vehicle)
    (h : jsTruthy q = true) :
    searchData (searchHandler q vs)
      = vs.filter (fun v => vehicleMatches (jsToLower (jsToString q)) v) := by
  unfold searchHandler
  rw [h]
  simp only [Bool.not_true, Bool.false_eq_true, if_false]
  split
  · rfl
  · rename_i hlen
    have hnil : vs.filter (fun v => vehicleMatches (jsToLower (jsToString q)) v) = [] :=
      List.length_eq_zero.mp (by omega)
    rw [hnil]
    rfl

/-- The early-return chain of the filter callback is the disjunction of
the ten individual match predicates. -/
theorem vehicleMatches_eq_or (q : String) (v : Vehicle) :
    vehicleMatches q v
      = (vrmMatch q v || makeMatch q v || modelMatch q v || variantMatch q v ||
         colourMatch q v || bodyTypeMatch q v || priceExactMatch q v ||
         mileageExactMatch q v || fuzzyPriceMatch q v || dateMatch q v) := by
  unfold vehicleMatches
  repeat' split <;> simp_all [Bool.or_assoc]

/-! ## Digit-string facts for the numeric predicates -/

theorem digit_not_space {c : Char} (h : c.isDigit = true) : jsIsSpace c = false := by
  by_contra hns
  rw [Bool.not_eq_false] at hns
  unfold jsIsSpace at hns
  simp only [Bool.or_eq_true, decide_eq_true_eq] at hns
  rcases hns with ((h1 | h1) | h1) | h1 <;> subst h1 <;> exact absurd h (by decide)

theorem isDigit_ne {c d : Char} (h : c.isDigit = true) (hd : d.isDigit = false) :
    c ≠ d := by
  intro he
  subst he
  rw [h] at hd
  exact Bool.noConfusion hd

theorem dropWhile_space_of_all_digits {l : List Char} (h : l.all Char.isDigit = true) :
    l.dropWhile jsIsSpace = l := by
  cases l with
  | nil => rfl
  | cons c cs =>
    simp only [List.all_cons, Bool.and_eq_true] at h
    simp [List.dropWhile_cons, digit_not_space h.1]

theorem takeWhile_digits_of_all {l : List Char} (h : l.all Char.isDigit = true) :
    l.takeWhile Char.isDigit = l := by
  induction l with
  | nil => rfl
  | cons c cs ih =>
    simp only [List.all_cons, Bool.and_eq_true] at h
    simp [List.takeWhile_cons, h.1, ih h.2]

theorem dropWhile_digits_of_all {l : List Char} (h : l.all Char.isDigit = true) :
    l.dropWhile Char.isDigit = [] := by
  induction l with
  | nil => rfl
  | cons c cs ih =>
    simp only [List.all_cons, Bool.and_eq_true] at h
    simp [List.dropWhile_cons, h.1, ih h.2]

theorem jsTrim_of_all_digits {l : List Char} (h : l.all Char.isDigit = true) :
    jsTrim l = l := by
  unfold jsTrim
  rw [dropWhile_space_of_all_digits h]
  have hrev : l.reverse.all Char.isDigit = true := by
    rw [List.all_eq_true] at h ⊢
    intro x hx
    exact h x (List.mem_reverse.mp hx)
  rw [dropWhile_space_of_all_digits hrev, List.reverse_reverse]

theorem isDecLiteral_of_digits {l : List Char} (hne : l ≠ [])
    (h : l.all Char.isDigit = true) : isDecLiteral l = true := by
  cases l with
  | nil => exact absurd rfl hne
  | cons c cs =>
    simp only [List.all_cons, Bool.and_eq_true] at h
    obtain ⟨hc, hcs⟩ := h
    have hall : (c :: cs).all Char.isDigit = true := by
      simp [List.all_cons, hc, hcs]
    have hsign : dropSign (c :: cs) = c :: cs := by
      simp [dropSign, isDigit_ne hc (show ('+').isDigit = false from by decide),
        isDigit_ne hc (show ('-').isDigit = false from by decide)]
    unfold isDecLiteral
    rw [hsign]
    unfold chompMantissa
    rw [if_pos (by simp [hasDigitHead, hc])]
    rw [dropWhile_digits_of_all hall]
    rfl

theorem jsNotNaN_of_digits (s : String) (hne : s.data ≠ [])
    (h : s.data.all Char.isDigit = true) : jsNotNaN s = true := by
  unfold jsNotNaN
  rw [jsTrim_of_all_digits h]
  simp [isDecLiteral_of_digits hne h]

theorem jsParseInt_of_digits (s : String) (hne : s.data ≠ [])
    (h : s.data.all Char.isDigit = true) :
    jsParseInt s = some ((decValue s.data : Nat) : Int) := by
  unfold jsParseInt
  rw [dropWhile_space_of_all_digits h]
  rcases hd : s.data with _ | ⟨c, cs⟩
  · exact absurd hd hne
  · rw [hd] at h
    simp only [List.all_cons, Bool.and_eq_true] at h
    obtain ⟨hc, hcs⟩ := h
    have hall : (c :: cs).all Char.isDigit = true := by
      simp [List.all_cons, hc, hcs]
    simp [isDigit_ne hc (show ('-').isDigit = false from by decide),
      isDigit_ne hc (show ('+').isDigit = false from by decide),
      takeWhile_digits_of_all hall]

/-! ## Spec-side match predicate (for the refinement claim C1) -/

/-- Spec-side notion for §4.2 items 7–9, following the spec's words: the
query "parses as an integer" when, after trimming whitespace, it is an
optional sign followed only by decimal digits.  (This is the second,
spec-worded definition for the refinement claim C1; the code-side
counterpart is the `jsNotNaN`/`jsParseInt` pair.) -/
def specParsesAsInt (s : String) : Option Int :=
  match jsTrim s.data with
  | [] => none
  | c :: r =>
      if c = '-' then
        if !r.isEmpty && r.all Char.isDigit then some (-(decValue r : Int)) else none
      else if c = '+' then
        if !r.isEmpty && r.all Char.isDigit then some (decValue r : Int) else none
      else
        if (c :: r).all Char.isDigit then some (decValue (c :: r) : Int) else none

/-- The ten match predicates exactly as claim C1 words them: CASE-
INSENSITIVE substring containment on all seven text fields — including
`DateOfRegistration` — and, when the query parses as an integer, exact
price equality, exact mileage equality, or price within 1000. -/
def specMatches (q : String) (v : Vehicle) : Bool :=
  jsIncludes (jsToLower v.VRM) (jsToLower q) ||
  jsIncludes (jsToLower v.Make) (jsToLower q) ||
  jsIncludes (jsToLower v.Model) (jsToLower q) ||
  jsIncludes (jsToLower v.Variant) (jsToLower q) ||
  jsIncludes (jsToLower v.Colour) (jsToLower q) ||
  jsIncludes (jsToLower v.BodyType) (jsToLower q) ||
  (match specParsesAsInt q with
   | some n => decide (v.Price = n)
   | none => false) ||
  (match specParsesAsInt q with
   | some n => decide (v.Mileage = n)
   | none => false) ||
  (match specParsesAsInt q with
   | some n => decide ((v.Price - n).natAbs ≤ 1000)
   | none => false) ||
  jsIncludes (jsToLower v.DateOfRegistration) (jsToLower q)

/-! ## Concrete records used in witnesses and counterexamples -/

/-- A sample record of the shape held in `data.json`. -/
def sampleVehicle : Vehicle :=
  { VRM := "AB12CDE", Make := "BMW", Model := "3 Series",
    Variant := "2.0 M Sport", Colour := "Blue", BodyType := "Saloon",
    Price := 12995, Mileage := 30000, DateOfRegistration := "15-MAR-2019" }

/-- A record whose registration date contains uppercase letters. -/
def dateCaseVehicle : Vehicle :=
  { VRM := "AA11AAA", Make := "Ford", Model := "Focus",
    Variant := "1.0 EcoBoost", Colour := "Blue", BodyType := "Hatchback",
    Price := 5000, Mileage := 42000, DateOfRegistration := "15-MAR-2019" }

/-! ## Claims -/

/-- C1 (counterexample): the claim as stated is false.  The record
`dateCaseVehicle` satisfies one of the ten predicates of §4.2 as the
claim words them — case-insensitive containment of the query `"MAR"` in
its `DateOfRegistration` `"15-MAR-2019"` — yet it is a member of the
searched collection and the search returns no data, because line 157 of
the handler tests the LOWERCASED query against the RAW (un-lowercased)
`DateOfRegistration` field. -/
theorem C1_tenPredicates_counterexample :
    specMatches "MAR" dateCaseVehicle = true ∧
    dateCaseVehicle ∈ [dateCaseVehicle] ∧
    searchData (searchHandler (JsVal.str "MAR") [dateCaseVehicle]) = [] :=
  ⟨by decide, by decide, by decide⟩

/-- C1 (amended): for every vehicle collection and every non-empty query
string, the search operation returns exactly the order-preserving
subsequence of the collection consisting of the vehicles satisfying at
least one of the ten match predicates as implemented: case-insensitive
substring containment on VRM, Make, Model, Variant, Colour and BodyType;
when the query is a numeric literal, exact Price equality, exact Mileage
equality, or |Price − parseInt(query)| ≤ 1000; and containment of the
lowercased query in the raw (case-sensitive) DateOfRegistration field.
The result is a sublist of the collection (original relative order, no
additions), and when the collection has no duplicate records each
included vehicle appears once. -/
theorem C1_search_filter_characterisation (q : String) (vs : List Vehicle)
    (h : q ≠ "") :
    searchData (searchHandler (JsVal.str q) vs)
        = vs.filter (fun v =>
            vrmMatch (jsToLower q) v || makeMatch (jsToLower q) v ||
            modelMatch (jsToLower q) v || variantMatch (jsToLower q) v ||
            colourMatch (jsToLower q) v || bodyTypeMatch (jsToLower q) v ||
            priceExactMatch (jsToLower q) v || mileageExactMatch (jsToLower q) v ||
            fuzzyPriceMatch (jsToLower q) v || dateMatch (jsToLower q) v) ∧
    List.Sublist (searchData (searchHandler (JsVal.str q) vs)) vs ∧
    (vs.Nodup → (searchData (searchHandler (JsVal.str q) vs)).Nodup) := by
  have htr : jsTruthy (JsVal.str q) = true := by simp [jsTruthy, h]
  have hef := searchData_eq_filter_of_truthy (JsVal.str q) vs htr
  have hfe : (fun v => vehicleMatches (jsToLower (jsToString (JsVal.str q))) v)
      = (fun v =>
          vrmMatch (jsToLower q) v || makeMatch (jsToLower q) v ||
          modelMatch (jsToLower q) v || variantMatch (jsToLower q) v ||
          colourMatch (jsToLower q) v || bodyTypeMatch (jsToLower q) v ||
          priceExactMatch (jsToLower q) v || mileageExactMatch (jsToLower q) v ||
          fuzzyPriceMatch (jsToLower q) v || dateMatch (jsToLower q) v) := by
    funext v
    exact vehicleMatches_eq_or (jsToLower q) v
  refine ⟨?_, ?_, ?_⟩
  · rw [hef, hfe]
  · rw [hef]
    exact List.filter_sublist vs
  · intro hnd
    rw [hef]
    exact (List.filter_sublist vs).nodup hnd

/-- C1 witness: the amended characterisation evaluated at the query
`"bmw"` over a one-record collection. -/
theorem C1_search_filter_characterisation_witness :
    ("bmw" : String) ≠ "" ∧
    (searchData (searchHandler (JsVal.str "bmw") [sampleVehicle])
        = [sampleVehicle].filter (fun v =>
            vrmMatch (jsToLower "bmw") v || makeMatch (jsToLower "bmw") v ||
            modelMatch (jsToLower "bmw") v || variantMatch (jsToLower "bmw") v ||
            colourMatch (jsToLower "bmw") v || bodyTypeMatch (jsToLower "bmw") v ||
            priceExactMatch (jsToLower "bmw") v || mileageExactMatch (jsToLower "bmw") v ||
            fuzzyPriceMatch (jsToLower "bmw") v || dateMatch (jsToLower "bmw") v) ∧
      List.Sublist (searchData (searchHandler (JsVal.str "bmw") [sampleVehicle]))
        [sampleVehicle] ∧
      ([sampleVehicle].Nodup →
        (searchData (searchHandler (JsVal.str "bmw") [sampleVehicle])).Nodup)) :=
  ⟨by decide, C1_search_filter_characterisation "bmw" [sampleVehicle] (by decide)⟩

/-- C2: the search operation is invariant under the letter case of the
query: case-variant queries (same characters up to letter case) yield
identical result lists, in the same order. -/
theorem C2_search_case_insensitive (q1 q2 : String) (vs : List Vehicle)
    (h : isCaseVariantOf q1 q2 = true) :
    searchData (searchHandler (JsVal.str q1) vs)
      = searchData (searchHandler (JsVal.str q2) vs) := by
  by_cases h1 : q1 = ""
  · have h2 : q2 = "" := (isCaseVariantOf_empty_iff h).mp h1
    rw [h1, h2]
  · have h2 : q2 ≠ "" := fun he => h1 ((isCaseVariantOf_empty_iff h).mpr he)
    have ht1 : jsTruthy (JsVal.str q1) = true := by simp [jsTruthy, h1]
    have ht2 : jsTruthy (JsVal.str q2) = true := by simp [jsTruthy, h2]
    rw [searchData_eq_filter_of_truthy _ _ ht1, searchData_eq_filter_of_truthy _ _ ht2]
    simp only [jsToString]
    rw [isCaseVariantOf_toLower h]

/-- C2 witness: searching `"bmw"` and `"BMW"` give the same results. -/
theorem C2_search_case_insensitive_witness :
    isCaseVariantOf "bmw" "BMW" = true ∧
    searchData (searchHandler (JsVal.str "bmw") [sampleVehicle])
      = searchData (searchHandler (JsVal.str "BMW") [sampleVehicle]) :=
  ⟨by decide, C2_search_case_insensitive "bmw" "BMW" [sampleVehicle] (by decide)⟩

/-- C3: identifier lookup is invariant under the letter case of the
requested VRM: case-variant path parameters give the very same response
(same record or the same not-found). -/
theorem C3_vrm_lookup_case_insensitive (p1 p2 : String) (vs : List Vehicle)
    (h : isCaseVariantOf p1 p2 = true) :
    vrmHandler p1 vs = vrmHandler p2 vs := by
  unfold vrmHandler
  rw [isCaseVariantOf_toUpper h]

/-- C3 witness: looking up `ab12cde` and `AB12CDE` give the same
response over a collection containing VRM `AB12CDE`. -/
theorem C3_vrm_lookup_case_insensitive_witness :
    isCaseVariantOf "ab12cde" "AB12CDE" = true ∧
    vrmHandler "ab12cde" [sampleVehicle] = vrmHandler "AB12CDE" [sampleVehicle] :=
  ⟨by decide, C3_vrm_lookup_case_insensitive "ab12cde" "AB12CDE" [sampleVehicle] (by decide)⟩

/-- C4: the fuzzy-price window.  (i) Every vehicle in the collection
priced at 12995 appears in the results for query `"12000"`
(|12995 − 12000| = 995 ≤ 1000).  (ii) A vehicle priced at 12995 for
which none of the other nine predicates fires at query `"10000"` is
excluded from those results (|12995 − 10000| = 2995 > 1000).  (iii) In
general, for a purely numeric (all-digits, non-empty) query, the
fuzzy-price ground fires exactly when the absolute difference between
Price and the parsed query value is at most 1000. -/
theorem C4_fuzzy_price_window :
    (∀ (vs : List Vehicle) (v : Vehicle), v ∈ vs → v.Price = 12995 →
        v ∈ searchData (searchHandler (JsVal.str "12000") vs)) ∧
    (∀ (vs : List Vehicle) (v : Vehicle), v.Price = 12995 →
        v.Mileage ≠ 10000 →
        vrmMatch "10000" v = false → makeMatch "10000" v = false →
        modelMatch "10000" v = false → variantMatch "10000" v = false →
        colourMatch "10000" v = false → bodyTypeMatch "10000" v = false →
        dateMatch "10000" v = false →
        v ∉ searchData (searchHandler (JsVal.str "10000") vs)) ∧
    (∀ (q : String) (v : Vehicle), q.data ≠ [] → q.data.all Char.isDigit = true →
        (fuzzyPriceMatch q v = true ↔ (v.Price - (decValue q.data : Int)).natAbs ≤ 1000)) := by
  refine ⟨?_, ?_, ?_⟩
  · intro vs v hmem hp
    have htr : jsTruthy (JsVal.str "12000") = true := by decide
    rw [searchData_eq_filter_of_truthy _ _ htr, List.mem_filter]
    refine ⟨hmem, ?_⟩
    rw [show jsToLower (jsToString (JsVal.str "12000")) = "12000" from by decide,
        vehicleMatches_eq_or]
    have hfz : fuzzyPriceMatch "12000" v = true := by
      unfold fuzzyPriceMatch
      rw [show jsNotNaN "12000" = true from by decide,
          show jsParseInt "12000" = some 12000 from by decide]
      rw [hp]
      decide
    simp [hfz]
  · intro vs v hp hm h1 h2 h3 h4 h5 h6 h7
    have htr : jsTruthy (JsVal.str "10000") = true := by decide
    rw [searchData_eq_filter_of_truthy _ _ htr, List.mem_filter]
    rintro ⟨hmem, hmatch⟩
    rw [show jsToLower (jsToString (JsVal.str "10000")) = "10000" from by decide,
        vehicleMatches_eq_or] at hmatch
    have hpe : priceExactMatch "10000" v = false := by
      unfold priceExactMatch
      rw [show jsParseInt "10000" = some 10000 from by decide, hp]
      decide
    have hme : mileageExactMatch "10000" v = false := by
      unfold mileageExactMatch
      rw [show jsParseInt "10000" = some 10000 from by decide]
      simp [hm]
    have hfz : fuzzyPriceMatch "10000" v = false := by
      unfold fuzzyPriceMatch
      rw [show jsParseInt "10000" = some 10000 from by decide, hp]
      decide
    simp [h1, h2, h3, h4, h5, h6, h7, hpe, hme, hfz] at hmatch
  · intro q v hne hdig
    unfold fuzzyPriceMatch
    rw [jsNotNaN_of_digits q hne hdig, jsParseInt_of_digits q hne hdig]
    simp

/-- C4 witness: the three parts of the fuzzy-price property evaluated on
a record priced at 12995. -/
theorem C4_fuzzy_price_window_witness :
    sampleVehicle ∈ searchData (searchHandler (JsVal.str "12000") [sampleVehicle]) ∧
    sampleVehicle ∉ searchData (searchHandler (JsVal.str "10000") [sampleVehicle]) ∧
    (fuzzyPriceMatch "12000" sampleVehicle = true ↔
      (sampleVehicle.Price - (decValue "12000".data : Int)).natAbs ≤ 1000) :=
  ⟨C4_fuzzy_price_window.1 [sampleVehicle] sampleVehicle (by decide) (by decide),
   C4_fuzzy_price_window.2.1 [sampleVehicle] sampleVehicle (by decide) (by decide)
     (by decide) (by decide) (by decide) (by decide) (by decide) (by decide) (by decide),
   C4_fuzzy_price_window.2.2 "12000" sampleVehicle (by decide) (by decide)⟩

/-- C5 (counterexample): the claim as stated is false for whitespace-only
queries.  The query `" "` (a single space) is a non-empty — hence truthy
— string, so the handler's `if (!searchQuery)` validation does NOT
reject it: filtering proceeds and, because `sampleVehicle`'s Model
`"3 Series"` contains a space, the response is a 200 success carrying
vehicle data, not a 400 client error. -/
theorem C5_whitespace_query_counterexample :
    searchHandler (JsVal.str " ") [sampleVehicle]
      = SearchResponse.ok 1 [sampleVehicle] := by
  decide

/-- C5 (amended): a missing or empty-string query is rejected with the
400 client-error envelope before any filtering, and no vehicle data is
returned; but any non-empty string — including whitespace-only ones —
passes the validation (the whitespace-only check exists only in the
client-side form, not in the HTTP operation). -/
theorem C5_missing_or_empty_query_rejected :
    (∀ vs : List Vehicle,
        searchHandler JsVal.undef vs = SearchResponse.badRequest "Search query is required" ∧
        searchHandler (JsVal.str "") vs = SearchResponse.badRequest "Search query is required") ∧
    (∀ (s : String) (vs : List Vehicle) (m : String), s ≠ "" →
        searchHandler (JsVal.str s) vs ≠ SearchResponse.badRequest m) := by
  constructor
  · intro vs
    exact ⟨rfl, rfl⟩
  · intro s vs m hs
    unfold searchHandler
    rw [show jsTruthy (JsVal.str s) = true from by simp [jsTruthy, hs]]
    simp only [Bool.not_true, Bool.false_eq_true, if_false]
    split <;> simp

/-- C5 witness: the non-rejection half evaluated at the whitespace-only
query `" "`. -/
theorem C5_missing_or_empty_query_rejected_witness :
    (" " : String) ≠ "" ∧
    searchHandler (JsVal.str " ") [] ≠ SearchResponse.badRequest "Search query is required" :=
  ⟨by decide,
   C5_missing_or_empty_query_rejected.2 " " [] "Search query is required" (by decide)⟩

/-- C6: when an accepted (non-empty) query matches no vehicle, the search
operation answers with the 404 envelope `{success:false, message, data:[]}`
— never an empty 200 success; and when no record carries the requested
VRM, the direct lookup answers with the 404 envelope
`{success:false, message}`, which has no data field at all. -/
theorem C6_not_found_signals :
    (∀ (q : String) (vs : List Vehicle), q ≠ "" →
        (∀ v ∈ vs, vehicleMatches (jsToLower q) v = false) →
        searchHandler (JsVal.str q) vs
          = SearchResponse.notFound ("No vehicles found matching: \"" ++ q ++ "\"") []) ∧
    (∀ (p : String) (vs : List Vehicle),
        (∀ v ∈ vs, jsToUpper v.VRM ≠ jsToUpper p) →
        vrmHandler p vs
          = VrmResponse.notFound ("No vehicle found with VRM: " ++ jsToUpper p)) := by
  constructor
  · intro q vs hq hnone
    unfold searchHandler
    rw [show jsTruthy (JsVal.str q) = true from by simp [jsTruthy, hq]]
    simp only [Bool.not_true, Bool.false_eq_true, if_false]
    have hnil : vs.filter
        (fun v => vehicleMatches (jsToLower (jsToString (JsVal.str q))) v) = [] := by
      rw [List.filter_eq_nil_iff]
      intro v hv
      simp only [jsToString]
      simp [hnone v hv]
    rw [hnil]
    simp [jsToString]
  · intro p vs hnovrm
    unfold vrmHandler
    have hfind : vs.find? (fun v => decide (jsToUpper v.VRM = jsToUpper p)) = none := by
      rw [List.find?_eq_none]
      intro v hv
      simp [hnovrm v hv]
    rw [hfind]

/-- C6 witness: the no-match search query `"zzz"` and the unknown VRM
`"XX99XXX"` over a one-record collection. -/
theorem C6_not_found_signals_witness :
    searchHandler (JsVal.str "zzz") [sampleVehicle]
      = SearchResponse.notFound ("No vehicles found matching: \"" ++ "zzz" ++ "\"") [] ∧
    vrmHandler "XX99XXX" [sampleVehicle]
      = VrmResponse.notFound ("No vehicle found with VRM: " ++ jsToUpper "XX99XXX") :=
  ⟨C6_not_found_signals.1 "zzz" [sampleVehicle] (by decide) (by decide),
   C6_not_found_signals.2 "XX99XXX" [sampleVehicle] (by decide)⟩

/-- C7: when reading or parsing the backing file fails, `getVehiclesData`
returns the empty list instead of propagating the failure, so the
endpoints behave exactly as over an empty collection; in particular
list-all still reports HTTP 200, success, count 0 and no data rather
than a distinguishable server error. -/
theorem C7_store_failure_degrades_to_empty (e : String) (q : JsVal) (p : String) :
    getVehiclesData (Except.error e) = [] ∧
    listAllHandler (Except.error e)
      = { status := 200, success := true, count := 0, data := [] } ∧
    searchHandler q (getVehiclesData (Except.error e)) = searchHandler q [] ∧
    vrmHandler p (getVehiclesData (Except.error e)) = vrmHandler p [] :=
  ⟨rfl, rfl, rfl, rfl⟩

/-- C8: for every successfully loaded backing collection, the list-all
response has `count` equal to the length of its `data` array, its `data`
is exactly the backing collection (same records, cardinality and order),
and it is a 200 success. -/
theorem C8_list_all_exact (vs : List Vehicle) :
    (listAllHandler (Except.ok vs)).count = (listAllHandler (Except.ok vs)).data.length ∧
    (listAllHandler (Except.ok vs)).data = vs ∧
    (listAllHandler (Except.ok vs)).success = true ∧
    (listAllHandler (Except.ok vs)).status = 200 :=
  ⟨rfl, rfl, rfl, rfl⟩

/-- C9: round-trip — whenever the get-by-VRM lookup succeeds, the VRM
field of the returned record equals the requested identifier up to
letter case (their uppercasings coincide). -/
theorem C9_vrm_roundtrip (p : String) (vs : List Vehicle) (v : Vehicle)
    (h : vrmHandler p vs = VrmResponse.found v) :
    jsToUpper v.VRM = jsToUpper p := by
  unfold vrmHandler at h
  split at h
  · rename_i w hf
    injection h with h'
    subst h'
    have := List.find?_some hf
    simpa using this
  · cases h

/-- C9 witness: the lookup of `"ab12cde"` returns the record with VRM
`"AB12CDE"`. -/
theorem C9_vrm_roundtrip_witness :
    jsToUpper sampleVehicle.VRM = jsToUpper "ab12cde" :=
  C9_vrm_roundtrip "ab12cde" [sampleVehicle] sampleVehicle (by decide)

/-- C10: the search endpoint validates the request-body query by JS
truthiness, not by being a non-empty string: the 400 rejection happens
exactly for falsy values (absent, null, false, the number 0, the empty
string — so a client searching for the meaningful value 0 is rejected),
while truthy non-string values such as a non-zero number or `true` are
accepted and coerced to their string form before filtering. -/
theorem C10_truthiness_validation :
    (∀ (q : JsVal) (vs : List Vehicle),
        searchHandler q vs = SearchResponse.badRequest "Search query is required"
          ↔ jsTruthy q = false) ∧
    (∀ vs : List Vehicle,
        searchHandler (JsVal.num 0) vs = SearchResponse.badRequest "Search query is required" ∧
        searchHandler (JsVal.bool false) vs = SearchResponse.badRequest "Search query is required" ∧
        searchHandler JsVal.null vs = SearchResponse.badRequest "Search query is required" ∧
        searchHandler JsVal.undef vs = SearchResponse.badRequest "Search query is required") ∧
    (∀ (n : Int) (vs : List Vehicle), n ≠ 0 →
        searchData (searchHandler (JsVal.num n) vs)
          = vs.filter (fun v => vehicleMatches (jsToLower (toString n)) v)) ∧
    (∀ vs : List Vehicle,
        searchData (searchHandler (JsVal.bool true) vs)
          = vs.filter (fun v => vehicleMatches (jsToLower "true") v)) := by
  refine ⟨?_, ?_, ?_, ?_⟩
  · intro q vs
    constructor
    · intro hbr
      by_contra hnt
      rw [Bool.not_eq_false] at hnt
      unfold searchHandler at hbr
      rw [hnt] at hbr
      simp only [Bool.not_true, Bool.false_eq_true, if_false] at hbr
      split at hbr <;> cases hbr
    · intro hf
      unfold searchHandler
      rw [hf]
      rfl
  · intro vs
    exact ⟨rfl, rfl, rfl, rfl⟩
  · intro n vs hn
    have ht : jsTruthy (JsVal.num n) = true := by simp [jsTruthy, hn]
    have hq := searchData_eq_filter_of_truthy (JsVal.num n) vs ht
    simpa [jsToString] using hq
  · intro vs
    have hq := searchData_eq_filter_of_truthy (JsVal.bool true) vs rfl
    simpa [jsToString] using hq

/-- C10 witness: the numeric query 12000 is accepted and filtered via its
string form. -/
theorem C10_truthiness_validation_witness :
    searchData (searchHandler (JsVal.num 12000) [sampleVehicle])
      = [sampleVehicle].filter
          (fun v => vehicleMatches (jsToLower (toString (12000 : Int))) v) :=
  C10_truthiness_validation.2.2.1 12000 [sampleVehicle] (by decide)
